import Mathlib

/-!
Shallow embedding of `src/certvalidator/ocsp_client.py` (OCSP response fetching
with nonce verification, response caching under a nonce-free key, and
multi-endpoint failover).

External collaborators (the asn1crypto ASN.1 encoder/decoder, the HTTP
transport) are carried as opaque function parameters in an `Env` record; the
cache is threaded explicitly as state, and every cache/network interaction is
recorded in an I/O trace so that "no I/O occurs" claims are statable.
-/

namespace CertValidator

/-- An asn1crypto `x509.Name` value, exposed only through the digest attributes
the source reads (`getattr(cert.issuer, hash_algo)`): `sha1` and `sha256` are
the digests of its DER encoding, computed by the external library and carried
here as opaque byte strings. -/
structure Name where
  sha1 : List Nat
  sha256 : List Nat
deriving DecidableEq, Repr

/-- An asn1crypto public-key value, exposed through the same digest attributes
(`getattr(issuer.public_key, hash_algo)`). -/
structure PublicKeyInfo where
  sha1 : List Nat
  sha256 : List Nat
deriving DecidableEq, Repr

/-- An asn1crypto `x509.Certificate`, restricted to the fields the source
reads: `cert.issuer`, `cert.serial_number`, `issuer.public_key`, and
`cert.ocsp_urls` (the service endpoints, in certificate-declared order). -/
structure Certificate where
  issuer : Name
  public_key : PublicKeyInfo
  serial_number : Int
  ocsp_urls : List String
deriving DecidableEq, Repr

/-- `getattr(n, hash_algo)` for a `Name`, with `hash_algo` one of the two
validated strings. -/
def nameAttr (hash_algo : String) (n : Name) : List Nat :=
  if hash_algo = "sha256" then n.sha256 else n.sha1

/-- `getattr(k, hash_algo)` for a public key. -/
def keyAttr (hash_algo : String) (k : PublicKeyInfo) : List Nat :=
  if hash_algo = "sha256" then k.sha256 else k.sha1

/-- `ocsp.CertId` as built in `fetch`. -/
structure CertId where
  hash_algorithm : String
  issuer_name_hash : List Nat
  issuer_key_hash : List Nat
  serial_number : Int
deriving DecidableEq, Repr

/-- The `CertId` constructed by `fetch` lines 94-99 of the source. -/
def buildCertId (cert issuer : Certificate) (hash_algo : String) : CertId :=
  { hash_algorithm := hash_algo
  , issuer_name_hash := nameAttr hash_algo cert.issuer
  , issuer_key_hash := keyAttr hash_algo issuer.public_key
  , serial_number := cert.serial_number }

/-- `ocsp.Request`: a single certificate identifier. -/
structure OCSPReq where
  req_cert : CertId
deriving DecidableEq, Repr

/-- `ocsp.TBSRequestExtension`: the nonce extension with its id, criticality
flag and the content bytes of its `extn_value` octet string. -/
structure TBSRequestExtension where
  extn_id : String
  critical : Bool
  extn_value : List Nat
deriving DecidableEq, Repr

/-- `ocsp.TBSRequest`: the request list plus the optional extension list
(`none` models the field being absent). -/
structure TBSRequest where
  request_list : List OCSPReq
  request_extensions : Option (List TBSRequestExtension)
deriving DecidableEq, Repr

/-- `ocsp.OCSPRequest`. -/
structure OCSPRequestObj where
  tbs_request : TBSRequest
deriving DecidableEq, Repr

/-- DER encoding of a `core.OctetString` whose content is shorter than 128
bytes (tag `0x04`, one length byte, content); the source only ever dumps the
16-byte nonce this way. -/
def octetStringDump (content : List Nat) : List Nat :=
  4 :: content.length :: content

/-- Recovering the native bytes from a short-form octet-string encoding:
drops the tag and length byte, inverting `octetStringDump`. -/
def octetStringParse (bs : List Nat) : List Nat :=
  bs.drop 2

/-- `_get_ocsp_request_obj(cert_id, use_nonce)`.  The source draws the nonce
from `os.urandom(16)`; the random bytes are passed in explicitly as `rand`
(they are only consulted when `use_nonce` is true). -/
def get_ocsp_request_obj (cert_id : CertId) (use_nonce : Bool) (rand : List Nat) :
    OCSPRequestObj :=
  let request : OCSPReq := { req_cert := cert_id }
  let tbs_request : TBSRequest := { request_list := [request], request_extensions := none }
  let nonce_extension : TBSRequestExtension :=
    { extn_id := "nonce", critical := false, extn_value := octetStringDump rand }
  let tbs_request :=
    if use_nonce then
      { tbs_request with request_extensions := some [nonce_extension] }
    else tbs_request
  { tbs_request := tbs_request }

/-- asn1crypto's `OCSPRequest.nonce_value`: scans the request extensions and
returns the parsed native bytes of the last extension whose id is `nonce`,
or `none` when extensions are absent or no nonce extension exists. -/
def OCSPRequestObj.nonce_value (r : OCSPRequestObj) : Option (List Nat) :=
  match r.tbs_request.request_extensions with
  | none => none
  | some exts =>
    exts.foldl
      (fun acc e => if e.extn_id = "nonce" then some (octetStringParse e.extn_value) else acc)
      none

/-- An `ocsp.OCSPResponse` as this core inspects it: the optional native bytes
of its echoed nonce extension, plus the remaining (opaque) decoded payload. -/
structure OCSPResponse where
  nonce_value : Option (List Nat)
  payload : List Nat
deriving DecidableEq, Repr

/-- A transport-layer error (`urllib`'s `URLError`), carried with its reason
text so that re-raising preserves kind and message. -/
structure URLError where
  reason : String
deriving DecidableEq, Repr

/-- An HTTP request value as handed to the cache bridge and transport:
method, endpoint URL, body bytes and headers. -/
structure Request where
  method : String
  url : String
  data : List Nat
  headers : List (String × String)
deriving DecidableEq, Repr

/-- An HTTP response: its body bytes plus whether it came from the cache
(`cache_manager.CachedResponse`) or from the network. -/
structure HTTPResponse where
  content : List Nat
  is_cached : Bool
deriving DecidableEq, Repr

/-- One observable cache/network interaction, recorded in order. -/
inductive IOEvent where
  | cacheCheck (key : Request)
  | cacheGet (key : Request)
  | netSend (request : Request) (timeout : Nat)
  | cacheStore (original : Request) (key : Request)
deriving DecidableEq, Repr

/-- The mutable world threaded through a fetch: the cache contents (newest
entry first) and the trace of I/O events performed so far. -/
structure FetchState where
  cache : List (Request × List Nat)
  trace : List IOEvent
deriving DecidableEq, Repr

/-- The external collaborators, out of scope for this core: the ASN.1 request
encoder, the ASN.1 response decoder, and the HTTP transport (which either
returns body bytes or fails with a `URLError`). -/
structure Env where
  dump : OCSPRequestObj → List Nat
  load : List Nat → OCSPResponse
  send : Request → Nat → Except URLError (List Nat)

/-- Modelled from the spec: the Cache Bridge (`cache_manager`, not under
`src/`) exposes `has`/`get` keyed by the nonce-free request; the model keys
the association list by the `Request` value itself. -/
def cacheLookup (cache : List (Request × List Nat)) (key : Request) : Option (List Nat) :=
  (cache.find? (fun kv => kv.1 == key)).map (fun kv => kv.2)

/-- Modelled from the spec: `cache_manager.is_request_cached`. -/
def is_request_cached (cache : List (Request × List Nat)) (key : Request) : Bool :=
  (cacheLookup cache key).isSome

/-- `_get_response(request, request_cache_key, timeout)`: on a hit return the
cached payload (marked cached); on a miss send the wire request and store the
fresh body under the nonce-free cache key (`cache_manager.replace_key`).
The cache bridge semantics (`is_request_cached` / `get_from_cache` /
`replace_key`, a module not under `src/`) are modelled from the spec's
Cache Bridge contract. -/
def get_response (env : Env) (request request_cache_key : Request) (timeout : Nat)
    (st : FetchState) : Except URLError HTTPResponse × FetchState :=
  let st1 : FetchState := { st with trace := st.trace ++ [IOEvent.cacheCheck request_cache_key] }
  match cacheLookup st.cache request_cache_key with
  | some content =>
    (Except.ok { content := content, is_cached := true },
      { st1 with trace := st1.trace ++ [IOEvent.cacheGet request_cache_key] })
  | none =>
    let st2 : FetchState := { st1 with trace := st1.trace ++ [IOEvent.netSend request timeout] }
    match env.send request timeout with
    | Except.error e => (Except.error e, st2)
    | Except.ok content =>
      (Except.ok { content := content, is_cached := false },
        { st2 with cache := (request_cache_key, content) :: st2.cache,
                   trace := st2.trace ++ [IOEvent.cacheStore request request_cache_key] })

/-- The errors `fetch` can raise: the two argument-validation errors, the
transport error, the nonce-mismatch validation error, and the degenerate
`raise last_e` with `last_e` still `None` (zero endpoints). -/
inductive FetchErr where
  | typeError (msg : String)
  | valueError (msg : String)
  | urlError (e : URLError)
  | ocspValidationError (msg : String)
  | raiseNone
deriving DecidableEq, Repr

/-- Whether an error is of the InvalidArgument kind (Python `TypeError` or
`ValueError` raised by the entry checks). -/
def FetchErr.isInvalidArgument : FetchErr → Bool
  | FetchErr.typeError _ => true
  | FetchErr.valueError _ => true
  | _ => false

/-- The message of `errors.OCSPValidationError` raised on a nonce mismatch. -/
def nonceMismatchMsg : String :=
  "Unable to verify OCSP response since the request and response nonces do not match"

/-- Modelled from the spec: `errors.py` (which fixes the class hierarchy of
`errors.OCSPValidationError`) is not under `src/`, so whether the per-endpoint
`except (URLError)` clause catches the nonce-mismatch error cannot be read off
the source alone.  The spec states this failure "still falls into the same
per-endpoint exception handling, so orchestration PROCEEDS to the next
endpoint, remembering this failure as the most recent one". -/
def nonceMismatchCaughtPerEndpoint : Bool := true

/-- The fixed header set of `fetch`, in source order. -/
def fetchHeaders (user_agent : String) : List (String × String) :=
  [("Accept", "application/ocsp-response"),
   ("User-Agent", user_agent),
   ("Content-Type", "application/ocsp-request")]

/-- Lines 101-102 of the source: the nonce-free request is built
unconditionally; the wire request is a separate nonce-bearing request when
`nonce` is true and otherwise IS the nonce-free one. -/
def fetchRequestPair (cert_id : CertId) (nonce : Bool) (rand : List Nat) :
    OCSPRequestObj × OCSPRequestObj :=
  let ocsp_request_no_nonce := get_ocsp_request_obj cert_id false rand
  (ocsp_request_no_nonce,
   if nonce then get_ocsp_request_obj cert_id true rand else ocsp_request_no_nonce)

/-- The per-endpoint loop of `fetch` (lines 104-124): try each endpoint once,
remember the most recent caught failure in `last_e`, and re-raise it when the
endpoints run out (`raise last_e`, which is the degenerate `raiseNone` when no
error was ever recorded). -/
def fetchLoop (env : Env) (ocsp_request_no_nonce ocsp_request : OCSPRequestObj)
    (headers : List (String × String)) (timeout : Nat) (urls : List String)
    (last_e : Option FetchErr) (st : FetchState) :
    Except FetchErr OCSPResponse × FetchState :=
  match urls with
  | [] =>
    match last_e with
    | some e => (Except.error e, st)
    | none => (Except.error FetchErr.raiseNone, st)
  | ocsp_url :: rest =>
    let request_no_nonce : Request :=
      { method := "POST", url := ocsp_url,
        data := env.dump ocsp_request_no_nonce, headers := headers }
    let request : Request :=
      { method := "POST", url := ocsp_url,
        data := env.dump ocsp_request, headers := headers }
    match get_response env request request_no_nonce timeout st with
    | (Except.error e, st') =>
      fetchLoop env ocsp_request_no_nonce ocsp_request headers timeout rest
        (some (FetchErr.urlError e)) st'
    | (Except.ok response, st') =>
      let ocsp_response := env.load response.content
      let request_nonce := ocsp_request.nonce_value
      let response_nonce := ocsp_response.nonce_value
      if response.is_cached = false ∧ request_nonce.isSome ∧ response_nonce.isSome ∧
          request_nonce ≠ response_nonce then
        if nonceMismatchCaughtPerEndpoint then
          fetchLoop env ocsp_request_no_nonce ocsp_request headers timeout rest
            (some (FetchErr.ocspValidationError nonceMismatchMsg)) st'
        else (Except.error (FetchErr.ocspValidationError nonceMismatchMsg), st')
      else (Except.ok ocsp_response, st')

/-- The body of `fetch` after the entry checks have passed and the user agent
has been resolved to a string. -/
def fetchChecked (env : Env) (cert issuer : Certificate) (hash_algo : String)
    (nonce : Bool) (user_agent : String) (timeout : Nat) (rand : List Nat)
    (st : FetchState) : Except FetchErr OCSPResponse × FetchState :=
  let cert_id := buildCertId cert issuer hash_algo
  let pair := fetchRequestPair cert_id nonce rand
  fetchLoop env pair.1 pair.2 (fetchHeaders user_agent) timeout cert.ocsp_urls none st

/-- Modelled from the spec: `version.py` is not under `src/`; the default user
agent is a fixed label embedding the running software's version. -/
def versionString : String := "0.1"

/-- The default user agent, `'certvalidator %s' % __version__`. -/
def default_user_agent : String := "certvalidator " ++ versionString

/-- A dynamically-typed Python argument value, as far as the entry checks of
`fetch` discriminate them. -/
inductive PyVal where
  | cert (c : Certificate)
  | str (s : String)
  | bool (b : Bool)
  | int (n : Int)
  | pynone
deriving DecidableEq, Repr

/-- `type_name` from `._types`, applied to an argument value. -/
def PyVal.type_name : PyVal → String
  | PyVal.cert _ => "Certificate"
  | PyVal.str _ => "str"
  | PyVal.bool _ => "bool"
  | PyVal.int _ => "int"
  | PyVal.pynone => "NoneType"

/-- The string payload of a validated `hash_algo` argument. -/
def algoString : PyVal → String
  | PyVal.str s => s
  | _ => ""

/-- `fetch(cert, issuer, hash_algo, nonce, user_agent, timeout)`: the entry
checks in source order (cert, issuer, hash_algo, nonce, user_agent), then the
CertId build, request construction and endpoint loop.  `rand` stands for the
`os.urandom(16)` draw of this call; the cache and I/O trace are threaded
through `st`. -/
def fetch (env : Env) (cert issuer : PyVal) (hash_algo : PyVal) (nonce : PyVal)
    (user_agent : PyVal) (timeout : Nat) (rand : List Nat) (st : FetchState) :
    Except FetchErr OCSPResponse × FetchState :=
  match cert with
  | PyVal.cert c =>
    match issuer with
    | PyVal.cert i =>
      if hash_algo = PyVal.str "sha1" ∨ hash_algo = PyVal.str "sha256" then
        match nonce with
        | PyVal.bool nb =>
          match user_agent with
          | PyVal.pynone =>
            fetchChecked env c i (algoString hash_algo) nb default_user_agent timeout rand st
          | PyVal.str ua =>
            fetchChecked env c i (algoString hash_algo) nb ua timeout rand st
          | v =>
            (Except.error (FetchErr.typeError
              ("user_agent must be a unicode string, not " ++ v.type_name)), st)
        | v =>
          (Except.error (FetchErr.typeError
            ("nonce must be a bool, not " ++ v.type_name)), st)
      else
        (Except.error (FetchErr.valueError
          "hash_algo must be one of sha1, sha256"), st)
    | v =>
      (Except.error (FetchErr.typeError
        ("issuer must be an instance of asn1crypto.x509.Certificate, not " ++ v.type_name)), st)
  | v =>
    (Except.error (FetchErr.typeError
      ("cert must be an instance of asn1crypto.x509.Certificate, not " ++ v.type_name)), st)

/-- The cache key `fetch` uses at endpoint `u`: method POST, the endpoint, the
encoding of the nonce-free request, and the fixed headers.  It takes no
use-nonce flag and no random bytes, so it is the same key whether nonce use is
enabled or not. -/
def fetchCacheKey (env : Env) (cert issuer : Certificate) (hash_algo : String)
    (user_agent : String) (u : String) : Request :=
  { method := "POST", url := u,
    data := env.dump (get_ocsp_request_obj (buildCertId cert issuer hash_algo) false []),
    headers := fetchHeaders user_agent }

/-- The wire request `fetch` sends at endpoint `u` for a given use-nonce flag
and random draw. -/
def fetchWireRequest (env : Env) (cert issuer : Certificate) (hash_algo : String)
    (nonce : Bool) (rand : List Nat) (user_agent : String) (u : String) : Request :=
  { method := "POST", url := u,
    data := env.dump (fetchRequestPair (buildCertId cert issuer hash_algo) nonce rand).2,
    headers := fetchHeaders user_agent }

/-- Whether an I/O event addresses the cache only through one of the given
keys (`netSend` events are not cache-key events). -/
def eventKeyIn (keys : List Request) : IOEvent → Bool
  | IOEvent.cacheCheck k => keys.contains k
  | IOEvent.cacheGet k => keys.contains k
  | IOEvent.cacheStore _ k => keys.contains k
  | IOEvent.netSend _ _ => true

/-- Every cache lookup, read and store in the trace uses one of `keys`. -/
def keyEventsOk (keys : List Request) (evs : List IOEvent) : Bool :=
  evs.all (eventKeyIn keys)

/-- The first `req_cert` carried by a request (the request list always has
exactly one element in this core). -/
def OCSPRequestObj.firstReqCert (r : OCSPRequestObj) : Option CertId :=
  r.tbs_request.request_list.head?.map (fun q => q.req_cert)

/-- A concrete issuer name for witness scenarios. -/
def testName : Name := { sha1 := [10], sha256 := [20] }

/-- A concrete public key for witness scenarios. -/
def testKey : PublicKeyInfo := { sha1 := [30], sha256 := [40] }

/-- A concrete subject certificate for witness scenarios. -/
def testCert (urls : List String) : Certificate :=
  { issuer := testName, public_key := testKey, serial_number := 7, ocsp_urls := urls }

/-- A concrete issuer certificate for witness scenarios. -/
def testIssuer : Certificate :=
  { issuer := { sha1 := [50], sha256 := [60] },
    public_key := { sha1 := [70], sha256 := [80] },
    serial_number := 8, ocsp_urls := [] }

/-- A concrete certificate identifier for witness scenarios. -/
def testCertId : CertId :=
  { hash_algorithm := "sha1", issuer_name_hash := [1],
    issuer_key_hash := [3], serial_number := 7 }

/-- A 16-byte nonce draw for witness scenarios. -/
def testRand : List Nat := List.replicate 16 0

/-- A second, different 16-byte draw for witness scenarios. -/
def testRand2 : List Nat := List.replicate 16 1

/-- An encoder for witness scenarios: encodes whether the request carries
extensions, which keeps nonce-free and nonce-bearing encodings distinct. -/
def testDump (r : OCSPRequestObj) : List Nat :=
  if r.tbs_request.request_extensions = none then [0] else [1]

/-- A decoder for witness scenarios: the first byte 9 marks a response whose
echoed nonce is `[5]`, anything else a response without a nonce. -/
def testLoad (bs : List Nat) : OCSPResponse :=
  if bs.head? = some 9 then { nonce_value := some [5], payload := bs }
  else { nonce_value := none, payload := bs }

/-- Equality of transport results is decidable, so witness hypotheses about
the test transport can be checked by evaluation. -/
instance {ε α : Type} [DecidableEq ε] [DecidableEq α] : DecidableEq (Except ε α) := fun x y =>
  match x, y with
  | Except.ok a, Except.ok b =>
    if h : a = b then isTrue (by rw [h]) else isFalse (by simp [h])
  | Except.error e, Except.error f =>
    if h : e = f then isTrue (by rw [h]) else isFalse (by simp [h])
  | Except.ok _, Except.error _ => isFalse (by simp)
  | Except.error _, Except.ok _ => isFalse (by simp)

/-- A transport for witness scenarios: the endpoints `bad1` and `bad2` fail
with a `URLError` naming the URL; every other endpoint returns the one-byte
body `[9]` (which `testLoad` decodes as carrying the nonce `[5]`). -/
def testSend (req : Request) (_t : Nat) : Except URLError (List Nat) :=
  if req.url = "bad1" ∨ req.url = "bad2" then Except.error { reason := req.url }
  else Except.ok [9]

/-- A transport for witness scenarios that answers with a nonce-free body. -/
def testSendPlain (req : Request) (_t : Nat) : Except URLError (List Nat) :=
  if req.url = "bad1" ∨ req.url = "bad2" then Except.error { reason := req.url }
  else Except.ok [7]

/-- The witness environment with nonce-echoing responses. -/
def testEnv : Env := { dump := testDump, load := testLoad, send := testSend }

/-- The witness environment with nonce-free responses. -/
def testEnvPlain : Env := { dump := testDump, load := testLoad, send := testSendPlain }

/-- A state whose cache is pre-populated for the test endpoint `good` with the
body `[9]`, whose decoded nonce `[5]` deliberately mismatches any request
nonce. -/
def preloadedState : FetchState :=
  { cache := [(fetchCacheKey testEnv (testCert ["good"]) testIssuer "sha1" "agent" "good", [9])],
    trace := [] }

/-- The empty starting state for witness scenarios. -/
def emptyState : FetchState := { cache := [], trace := [] }

/-- The `Request` value `fetch` builds at endpoint `u` from a request object:
method POST, the endpoint URL, the object's encoding as body, the headers. -/
def loopRequest (env : Env) (obj : OCSPRequestObj) (headers : List (String × String))
    (u : String) : Request :=
  { method := "POST", url := u, data := env.dump obj, headers := headers }


/-- Whether an argument value is a certificate (`isinstance(x, x509.Certificate)`). -/
def PyVal.isCert : PyVal → Bool
  | PyVal.cert _ => true
  | _ => false

/-- Whether an argument value is a boolean (`isinstance(x, bool)`). -/
def PyVal.isBool : PyVal → Bool
  | PyVal.bool _ => true
  | _ => false

/-- Whether an argument value is a text value (`isinstance(x, str_cls)`). -/
def PyVal.isStr : PyVal → Bool
  | PyVal.str _ => true
  | _ => false


theorem get_response_hit (env : Env) (request key : Request) (t : Nat) (st : FetchState)
    (bs : List Nat) (h : cacheLookup st.cache key = some bs) :
    get_response env request key t st =
      (Except.ok { content := bs, is_cached := true },
        { st with trace := st.trace ++ [IOEvent.cacheCheck key, IOEvent.cacheGet key] }) := by
  unfold get_response
  rw [h]
  simp

theorem get_response_miss_err (env : Env) (request key : Request) (t : Nat) (st : FetchState)
    (e : URLError) (h : cacheLookup st.cache key = none)
    (hs : env.send request t = Except.error e) :
    get_response env request key t st =
      (Except.error e,
        { st with trace := st.trace ++ [IOEvent.cacheCheck key, IOEvent.netSend request t] }) := by
  unfold get_response
  rw [h]
  simp [hs]

theorem get_response_miss_ok (env : Env) (request key : Request) (t : Nat) (st : FetchState)
    (bs : List Nat) (h : cacheLookup st.cache key = none)
    (hs : env.send request t = Except.ok bs) :
    get_response env request key t st =
      (Except.ok { content := bs, is_cached := false },
        { cache := (key, bs) :: st.cache,
          trace := st.trace ++ [IOEvent.cacheCheck key, IOEvent.netSend request t,
            IOEvent.cacheStore request key] }) := by
  unfold get_response
  rw [h]
  simp [hs]

theorem fetchLoop_cons_hit (env : Env) (rn rq : OCSPRequestObj)
    (headers : List (String × String)) (t : Nat) (u : String) (rest : List String)
    (last_e : Option FetchErr) (st : FetchState) (bs : List Nat)
    (h : cacheLookup st.cache (loopRequest env rn headers u) = some bs) :
    fetchLoop env rn rq headers t (u :: rest) last_e st =
      (Except.ok (env.load bs),
        { st with trace := st.trace ++
            [IOEvent.cacheCheck (loopRequest env rn headers u),
             IOEvent.cacheGet (loopRequest env rn headers u)] }) := by
  simp only [fetchLoop]
  simp only [loopRequest] at h ⊢
  rw [get_response_hit env _ _ t st bs h]
  simp

theorem fetchLoop_cons_err (env : Env) (rn rq : OCSPRequestObj)
    (headers : List (String × String)) (t : Nat) (u : String) (rest : List String)
    (last_e : Option FetchErr) (st : FetchState) (e : URLError)
    (h : cacheLookup st.cache (loopRequest env rn headers u) = none)
    (hs : env.send (loopRequest env rq headers u) t = Except.error e) :
    fetchLoop env rn rq headers t (u :: rest) last_e st =
      fetchLoop env rn rq headers t rest (some (FetchErr.urlError e))
        { st with trace := st.trace ++
            [IOEvent.cacheCheck (loopRequest env rn headers u),
             IOEvent.netSend (loopRequest env rq headers u) t] } := by
  simp only [fetchLoop]
  simp only [loopRequest] at h hs ⊢
  rw [get_response_miss_err env _ _ t st e h hs]

theorem fetchLoop_cons_fresh_ok (env : Env) (rn rq : OCSPRequestObj)
    (headers : List (String × String)) (t : Nat) (u : String) (rest : List String)
    (last_e : Option FetchErr) (st : FetchState) (bs : List Nat)
    (h : cacheLookup st.cache (loopRequest env rn headers u) = none)
    (hs : env.send (loopRequest env rq headers u) t = Except.ok bs)
    (hn : ¬(rq.nonce_value.isSome = true ∧ (env.load bs).nonce_value.isSome = true ∧
        rq.nonce_value ≠ (env.load bs).nonce_value)) :
    fetchLoop env rn rq headers t (u :: rest) last_e st =
      (Except.ok (env.load bs),
        { cache := (loopRequest env rn headers u, bs) :: st.cache,
          trace := st.trace ++
            [IOEvent.cacheCheck (loopRequest env rn headers u),
             IOEvent.netSend (loopRequest env rq headers u) t,
             IOEvent.cacheStore (loopRequest env rq headers u) (loopRequest env rn headers u)] }) := by
  simp only [fetchLoop]
  simp only [loopRequest] at h hs ⊢
  rw [get_response_miss_ok env _ _ t st bs h hs]
  simp [hn]

theorem fetchLoop_cons_fresh_mismatch (env : Env) (rn rq : OCSPRequestObj)
    (headers : List (String × String)) (t : Nat) (u : String) (rest : List String)
    (last_e : Option FetchErr) (st : FetchState) (bs : List Nat)
    (h : cacheLookup st.cache (loopRequest env rn headers u) = none)
    (hs : env.send (loopRequest env rq headers u) t = Except.ok bs)
    (hn : rq.nonce_value.isSome = true ∧ (env.load bs).nonce_value.isSome = true ∧
        rq.nonce_value ≠ (env.load bs).nonce_value) :
    fetchLoop env rn rq headers t (u :: rest) last_e st =
      fetchLoop env rn rq headers t rest (some (FetchErr.ocspValidationError nonceMismatchMsg))
        { cache := (loopRequest env rn headers u, bs) :: st.cache,
          trace := st.trace ++
            [IOEvent.cacheCheck (loopRequest env rn headers u),
             IOEvent.netSend (loopRequest env rq headers u) t,
             IOEvent.cacheStore (loopRequest env rq headers u) (loopRequest env rn headers u)] } := by
  simp only [fetchLoop]
  simp only [loopRequest] at h hs ⊢
  rw [get_response_miss_ok env _ _ t st bs h hs]
  simp [hn.1, hn.2.1, hn.2.2, nonceMismatchCaughtPerEndpoint]

theorem octetString_roundtrip (r : List Nat) : octetStringParse (octetStringDump r) = r := rfl

theorem nonce_value_with_nonce (cid : CertId) (r : List Nat) :
    (get_ocsp_request_obj cid true r).nonce_value = some r := by
  simp [get_ocsp_request_obj, OCSPRequestObj.nonce_value, octetStringParse, octetStringDump]

theorem nonce_value_no_nonce (cid : CertId) (r : List Nat) :
    (get_ocsp_request_obj cid false r).nonce_value = none := rfl

theorem get_obj_false_rand_irrelevant (cid : CertId) (r : List Nat) :
    get_ocsp_request_obj cid false r = get_ocsp_request_obj cid false [] := rfl

theorem fetch_valid_str_ua (env : Env) (c i : Certificate) (a : String) (b : Bool)
    (ua : String) (t : Nat) (r : List Nat) (st : FetchState)
    (ha : a = "sha1" ∨ a = "sha256") :
    fetch env (PyVal.cert c) (PyVal.cert i) (PyVal.str a) (PyVal.bool b)
        (PyVal.str ua) t r st =
      fetchChecked env c i a b ua t r st := by
  rcases ha with h | h <;> subst h <;> rfl

theorem fetch_valid_default_ua (env : Env) (c i : Certificate) (a : String) (b : Bool)
    (t : Nat) (r : List Nat) (st : FetchState)
    (ha : a = "sha1" ∨ a = "sha256") :
    fetch env (PyVal.cert c) (PyVal.cert i) (PyVal.str a) (PyVal.bool b)
        PyVal.pynone t r st =
      fetchChecked env c i a b default_user_agent t r st := by
  rcases ha with h | h <;> subst h <;> rfl

theorem fetchChecked_eq_loop (env : Env) (c i : Certificate) (a : String) (b : Bool)
    (ua : String) (t : Nat) (r : List Nat) (st : FetchState) :
    fetchChecked env c i a b ua t r st =
      fetchLoop env (fetchRequestPair (buildCertId c i a) b r).1
        (fetchRequestPair (buildCertId c i a) b r).2
        (fetchHeaders ua) t c.ocsp_urls none st := rfl

theorem loopRequest_no_nonce_eq_cacheKey (env : Env) (c i : Certificate) (a : String)
    (b : Bool) (r : List Nat) (ua : String) (u : String) :
    loopRequest env (fetchRequestPair (buildCertId c i a) b r).1 (fetchHeaders ua) u =
      fetchCacheKey env c i a ua u := rfl

theorem loopRequest_wire_eq (env : Env) (c i : Certificate) (a : String)
    (b : Bool) (r : List Nat) (ua : String) (u : String) :
    loopRequest env (fetchRequestPair (buildCertId c i a) b r).2 (fetchHeaders ua) u =
      fetchWireRequest env c i a b r ua u := rfl

theorem fetchLoop_all_fail (env : Env) (rn rq : OCSPRequestObj)
    (headers : List (String × String)) (t : Nat) (eOf : String → URLError) :
    ∀ (urls : List String) (last_e : Option FetchErr) (st : FetchState),
    (∀ u ∈ urls, cacheLookup st.cache (loopRequest env rn headers u) = none ∧
        env.send (loopRequest env rq headers u) t = Except.error (eOf u)) →
    fetchLoop env rn rq headers t urls last_e st =
      ((match urls.foldl (fun _ u => some (FetchErr.urlError (eOf u))) last_e with
        | some e => Except.error e
        | none => Except.error FetchErr.raiseNone),
       { st with trace := st.trace ++ urls.foldr (fun u acc =>
           IOEvent.cacheCheck (loopRequest env rn headers u) ::
           IOEvent.netSend (loopRequest env rq headers u) t :: acc) [] }) := by
  intro urls
  induction urls with
  | nil =>
    intro last_e st _
    cases last_e <;> simp [fetchLoop]
  | cons u rest ih =>
    intro last_e st hall
    have hu := hall u (by simp)
    rw [fetchLoop_cons_err env rn rq headers t u rest last_e st (eOf u) hu.1 hu.2]
    rw [ih (some (FetchErr.urlError (eOf u))) _ ?_]
    · simp
    · intro v hv
      exact hall v (by simp [hv])

theorem keyEventsOk_append (keys : List Request) (a b : List IOEvent) :
    keyEventsOk keys (a ++ b) = (keyEventsOk keys a && keyEventsOk keys b) := by
  simp [keyEventsOk, List.all_append]

theorem fetchLoop_keyEvents (env : Env) (rn rq : OCSPRequestObj)
    (headers : List (String × String)) (t : Nat) (keys : List Request) :
    ∀ (urls : List String) (last_e : Option FetchErr) (st : FetchState),
    (∀ u ∈ urls, keys.contains (loopRequest env rn headers u) = true) →
    keyEventsOk keys st.trace = true →
    keyEventsOk keys (fetchLoop env rn rq headers t urls last_e st).2.trace = true := by
  intro urls
  induction urls with
  | nil =>
    intro last_e st _ hst
    cases last_e <;> simpa [fetchLoop] using hst
  | cons u rest ih =>
    intro last_e st hall hst
    have hu : keys.contains (loopRequest env rn headers u) = true := hall u (by simp)
    have hrest : ∀ v ∈ rest, keys.contains (loopRequest env rn headers v) = true :=
      fun v hv => hall v (by simp [hv])
    cases hcl : cacheLookup st.cache (loopRequest env rn headers u) with
    | some bs =>
      rw [fetchLoop_cons_hit env rn rq headers t u rest last_e st bs hcl]
      simp [keyEventsOk_append, keyEventsOk, eventKeyIn]
      exact ⟨by simpa [keyEventsOk, eventKeyIn] using hst, by simpa using hu⟩
    | none =>
      cases hsend : env.send (loopRequest env rq headers u) t with
      | error e =>
        rw [fetchLoop_cons_err env rn rq headers t u rest last_e st e hcl hsend]
        refine ih _ _ hrest ?_
        simp [keyEventsOk_append, keyEventsOk, eventKeyIn]
        exact ⟨by simpa [keyEventsOk, eventKeyIn] using hst, by simpa using hu⟩
      | ok bs =>
        by_cases hn : (rq.nonce_value.isSome = true ∧ (env.load bs).nonce_value.isSome = true ∧
            rq.nonce_value ≠ (env.load bs).nonce_value)
        · rw [fetchLoop_cons_fresh_mismatch env rn rq headers t u rest last_e st bs hcl hsend hn]
          refine ih _ _ hrest ?_
          simp [keyEventsOk_append, keyEventsOk, eventKeyIn]
          exact ⟨by simpa [keyEventsOk, eventKeyIn] using hst, by simpa using hu⟩
        · rw [fetchLoop_cons_fresh_ok env rn rq headers t u rest last_e st bs hcl hsend hn]
          simp [keyEventsOk_append, keyEventsOk, eventKeyIn]
          exact ⟨by simpa [keyEventsOk, eventKeyIn] using hst, by simpa using hu⟩

theorem foldl_lastErr (eOf : String → URLError) :
    ∀ (urls : List String) (init : Option FetchErr),
    urls.foldl (fun _ u => some (FetchErr.urlError (eOf u))) init =
      (match urls.getLast? with
       | some ul => some (FetchErr.urlError (eOf ul))
       | none => init) := by
  intro urls
  induction urls with
  | nil => intro init; rfl
  | cons u rest ih =>
    intro init
    rw [List.foldl_cons, ih (some (FetchErr.urlError (eOf u)))]
    cases hr : rest.getLast? with
    | some v => simp [List.getLast?_cons, hr]
    | none => simp [List.getLast?_cons, hr]


theorem cacheLookup_cons_self (cache : List (Request × List Nat)) (k : Request)
    (bs : List Nat) : cacheLookup ((k, bs) :: cache) k = some bs := by
  simp [cacheLookup]

/-- Claim C2: when the cache reports a hit for the cache key of the reached
endpoint, the cached payload is decoded and returned immediately: no nonce
comparison is performed (the conclusion holds for every use-nonce flag, every
random draw and every decoded response nonce), no network exchange occurs and
the cache is unchanged (the trace gains only the lookup and read events), and
no further endpoints are attempted (`rest` does not appear in the result). -/
theorem claim2_cache_hit_returns_immediately
    (env : Env) (c i : Certificate) (a ua : String) (b : Bool) (t : Nat)
    (r bs : List Nat) (st : FetchState) (u : String) (rest : List String)
    (ha : a = "sha1" ∨ a = "sha256")
    (hurls : c.ocsp_urls = u :: rest)
    (hhit : cacheLookup st.cache (fetchCacheKey env c i a ua u) = some bs) :
    fetch env (PyVal.cert c) (PyVal.cert i) (PyVal.str a) (PyVal.bool b)
        (PyVal.str ua) t r st =
      (Except.ok (env.load bs),
        { st with trace := st.trace ++
            [IOEvent.cacheCheck (fetchCacheKey env c i a ua u),
             IOEvent.cacheGet (fetchCacheKey env c i a ua u)] }) := by
  rw [fetch_valid_str_ua env c i a b ua t r st ha, fetchChecked_eq_loop, hurls]
  rw [← loopRequest_no_nonce_eq_cacheKey env c i a b r ua u] at hhit ⊢
  exact fetchLoop_cons_hit env _ _ _ t u rest none st bs hhit

/-- Claim C5: when the certificate declares zero service endpoints, `fetch`
returns the degenerate no-remembered-error failure (`raise last_e` with
`last_e` still `None`) and the state is returned unchanged, so no network or
cache I/O occurred. -/
theorem claim5_zero_endpoints_degenerate_failure
    (env : Env) (c i : Certificate) (a ua : String) (b : Bool) (t : Nat)
    (r : List Nat) (st : FetchState)
    (ha : a = "sha1" ∨ a = "sha256")
    (hurls : c.ocsp_urls = []) :
    fetch env (PyVal.cert c) (PyVal.cert i) (PyVal.str a) (PyVal.bool b)
        (PyVal.str ua) t r st = (Except.error FetchErr.raiseNone, st) := by
  rw [fetch_valid_str_ua env c i a b ua t r st ha, fetchChecked_eq_loop, hurls]
  rfl

/-- Claim C7: the nonce-free request is built unconditionally (the first
component of the pair, carrying no extensions, for every flag); when use-nonce
is false the wire request IS the nonce-free request; when use-nonce is true
the wire request is a separate object carrying the 16-byte random draw as a
non-critical `nonce` extension whose native value is exactly the draw. -/
theorem claim7_request_construction (cid : CertId) (b : Bool) (rand : List Nat)
    (h16 : rand.length = 16) :
    (fetchRequestPair cid b rand).1 = get_ocsp_request_obj cid false rand ∧
    (fetchRequestPair cid b rand).1.tbs_request.request_extensions = none ∧
    (fetchRequestPair cid false rand).2 = (fetchRequestPair cid false rand).1 ∧
    (fetchRequestPair cid true rand).2.tbs_request.request_extensions =
      some [{ extn_id := "nonce", critical := false, extn_value := octetStringDump rand }] ∧
    (fetchRequestPair cid true rand).2.nonce_value = some rand ∧
    rand.length = 16 := by
  exact ⟨rfl, by cases b <;> rfl, rfl, rfl, nonce_value_with_nonce cid rand, h16⟩

theorem claim7_witness :
    (testRand.length = 16) ∧
    (fetchRequestPair testCertId true testRand).2.nonce_value = some testRand :=
  ⟨by decide,
   (claim7_request_construction testCertId true testRand (by decide)).2.2.2.2.1⟩

/-- Claim C8: the certificate identifier is built from the selected algorithm,
the issuer-name hash and issuer-public-key hash computed with that algorithm,
and the subject's serial number; the requests of two fetch calls on the same
inputs carry that identical identifier even though the two calls' nonce-bearing
requests carry different fresh nonces. -/
theorem claim8_cert_id_stability (c i : Certificate) (a : String) (r1 r2 : List Nat) :
    buildCertId c i a =
      { hash_algorithm := a, issuer_name_hash := nameAttr a c.issuer,
        issuer_key_hash := keyAttr a i.public_key, serial_number := c.serial_number } ∧
    (fetchRequestPair (buildCertId c i a) true r1).2.firstReqCert =
      some (buildCertId c i a) ∧
    (fetchRequestPair (buildCertId c i a) true r1).2.firstReqCert =
      (fetchRequestPair (buildCertId c i a) true r2).2.firstReqCert ∧
    (fetchRequestPair (buildCertId c i a) true r1).1 =
      (fetchRequestPair (buildCertId c i a) true r2).1 ∧
    (r1 ≠ r2 →
      (fetchRequestPair (buildCertId c i a) true r1).2.nonce_value ≠
        (fetchRequestPair (buildCertId c i a) true r2).2.nonce_value) := by
  refine ⟨rfl, rfl, rfl, rfl, fun hne => ?_⟩
  rw [show (fetchRequestPair (buildCertId c i a) true r1).2 =
    get_ocsp_request_obj (buildCertId c i a) true r1 from rfl]
  rw [show (fetchRequestPair (buildCertId c i a) true r2).2 =
    get_ocsp_request_obj (buildCertId c i a) true r2 from rfl]
  rw [nonce_value_with_nonce, nonce_value_with_nonce]
  simp [hne]

theorem claim8_witness :
    (testRand ≠ testRand2) ∧
    (fetchRequestPair (buildCertId (testCert []) testIssuer "sha1") true testRand).2.nonce_value ≠
      (fetchRequestPair (buildCertId (testCert []) testIssuer "sha1") true testRand2).2.nonce_value :=
  ⟨by decide,
   (claim8_cert_id_stability (testCert []) testIssuer "sha1" testRand testRand2).2.2.2.2 (by decide)⟩

/-- Claim C9: on a freshly fetched (non-cached) response, nonce verification
fails only when the request and the response both carry a nonce and the values
differ; if the request carries none, or the response echoes none, or the
values agree, the decoded response is returned successfully. -/
theorem claim9_nonce_verification_tolerates_absence
    (env : Env) (rn rq : OCSPRequestObj) (headers : List (String × String))
    (t : Nat) (u : String) (last_e : Option FetchErr) (st : FetchState) (bs : List Nat)
    (hmiss : cacheLookup st.cache (loopRequest env rn headers u) = none)
    (hsend : env.send (loopRequest env rq headers u) t = Except.ok bs) :
    ((rq.nonce_value = none ∨ (env.load bs).nonce_value = none ∨
        rq.nonce_value = (env.load bs).nonce_value) →
      (fetchLoop env rn rq headers t [u] last_e st).1 = Except.ok (env.load bs)) ∧
    ((rq.nonce_value.isSome = true ∧ (env.load bs).nonce_value.isSome = true ∧
        rq.nonce_value ≠ (env.load bs).nonce_value) →
      (fetchLoop env rn rq headers t [u] last_e st).1 =
        Except.error (FetchErr.ocspValidationError nonceMismatchMsg)) := by
  constructor
  · intro htol
    have hn : ¬(rq.nonce_value.isSome = true ∧ (env.load bs).nonce_value.isSome = true ∧
        rq.nonce_value ≠ (env.load bs).nonce_value) := by
      rcases htol with h | h | h <;> simp [h]
    rw [fetchLoop_cons_fresh_ok env rn rq headers t u [] last_e st bs hmiss hsend hn]
  · intro hn
    rw [fetchLoop_cons_fresh_mismatch env rn rq headers t u [] last_e st bs hmiss hsend hn]
    rfl

theorem nonce_value_pair_true (cid : CertId) (rand : List Nat) :
    (fetchRequestPair cid true rand).2.nonce_value = some rand :=
  nonce_value_with_nonce cid rand

theorem fetch_mismatch_step
    (env : Env) (c i : Certificate) (a ua : String) (t : Nat)
    (rand bs m : List Nat) (st : FetchState) (u : String) (rest : List String)
    (ha : a = "sha1" ∨ a = "sha256")
    (hurls : c.ocsp_urls = u :: rest)
    (hmiss : cacheLookup st.cache (fetchCacheKey env c i a ua u) = none)
    (hsend : env.send (fetchWireRequest env c i a true rand ua u) t = Except.ok bs)
    (hresp : (env.load bs).nonce_value = some m)
    (hne : m ≠ rand) :
    fetch env (PyVal.cert c) (PyVal.cert i) (PyVal.str a) (PyVal.bool true)
        (PyVal.str ua) t rand st =
      fetchLoop env (fetchRequestPair (buildCertId c i a) true rand).1
        (fetchRequestPair (buildCertId c i a) true rand).2 (fetchHeaders ua) t rest
        (some (FetchErr.ocspValidationError nonceMismatchMsg))
        { cache := (fetchCacheKey env c i a ua u, bs) :: st.cache,
          trace := st.trace ++
            [IOEvent.cacheCheck (fetchCacheKey env c i a ua u),
             IOEvent.netSend (fetchWireRequest env c i a true rand ua u) t,
             IOEvent.cacheStore (fetchWireRequest env c i a true rand ua u)
               (fetchCacheKey env c i a ua u)] } := by
  rw [fetch_valid_str_ua env c i a true ua t rand st ha, fetchChecked_eq_loop, hurls]
  rw [← loopRequest_no_nonce_eq_cacheKey env c i a true rand ua u] at hmiss ⊢
  rw [← loopRequest_wire_eq env c i a true rand ua u] at hsend ⊢
  apply fetchLoop_cons_fresh_mismatch env _ _ _ t u rest none st bs hmiss hsend
  rw [nonce_value_pair_true (buildCertId c i a) rand, hresp]
  refine ⟨rfl, rfl, ?_⟩
  simp
  exact fun hh => hne hh.symm

theorem fetch_cache_hit_fst
    (env : Env) (c i : Certificate) (a ua : String) (b : Bool) (t : Nat)
    (r : List Nat) (st : FetchState) (u : String) (rest : List String)
    (ha : a = "sha1" ∨ a = "sha256")
    (hurls : c.ocsp_urls = u :: rest)
    (hhit : cacheLookup st.cache (fetchCacheKey env c i a ua u) = some bs) :
    (fetch env (PyVal.cert c) (PyVal.cert i) (PyVal.str a) (PyVal.bool b)
        (PyVal.str ua) t r st).1 = Except.ok (env.load bs) := by
  rw [fetch_valid_str_ua env c i a b ua t r st ha, fetchChecked_eq_loop, hurls]
  rw [← loopRequest_no_nonce_eq_cacheKey env c i a b r ua u] at hhit
  rw [fetchLoop_cons_hit env _ _ _ t u rest none st bs hhit]

/-- Claim C1: when the request carried a nonce and a freshly fetched
(non-cached) response carries a nonce and the two differ, the endpoint fails
with the `OCSPValidationError` nonce-mismatch message, and this failure falls
into the same per-endpoint handling as a transport failure: the call
continues as the loop over the remaining endpoints with this validation error
remembered as the most recent one. -/
theorem claim1_nonce_mismatch_proceeds_to_next_endpoint
    (env : Env) (c i : Certificate) (a ua : String) (t : Nat)
    (rand bs m : List Nat) (st : FetchState) (u : String) (rest : List String)
    (ha : a = "sha1" ∨ a = "sha256")
    (hurls : c.ocsp_urls = u :: rest)
    (hmiss : cacheLookup st.cache (fetchCacheKey env c i a ua u) = none)
    (hsend : env.send (fetchWireRequest env c i a true rand ua u) t = Except.ok bs)
    (hresp : (env.load bs).nonce_value = some m)
    (hne : m ≠ rand) :
    fetch env (PyVal.cert c) (PyVal.cert i) (PyVal.str a) (PyVal.bool true)
        (PyVal.str ua) t rand st =
      fetchLoop env (fetchRequestPair (buildCertId c i a) true rand).1
        (fetchRequestPair (buildCertId c i a) true rand).2 (fetchHeaders ua) t rest
        (some (FetchErr.ocspValidationError nonceMismatchMsg))
        { cache := (fetchCacheKey env c i a ua u, bs) :: st.cache,
          trace := st.trace ++
            [IOEvent.cacheCheck (fetchCacheKey env c i a ua u),
             IOEvent.netSend (fetchWireRequest env c i a true rand ua u) t,
             IOEvent.cacheStore (fetchWireRequest env c i a true rand ua u)
               (fetchCacheKey env c i a ua u)] } :=
  fetch_mismatch_step env c i a ua t rand bs m st u rest ha hurls hmiss hsend hresp hne

theorem claim1_witness :
    ((testEnv.load [9]).nonce_value = some [5]) ∧
    (([5] : List Nat) ≠ testRand) ∧
    fetch testEnv (PyVal.cert (testCert ["good", "next"])) (PyVal.cert testIssuer)
        (PyVal.str "sha1") (PyVal.bool true) (PyVal.str "agent") 10 testRand emptyState =
      fetchLoop testEnv
        (fetchRequestPair (buildCertId (testCert ["good", "next"]) testIssuer "sha1") true testRand).1
        (fetchRequestPair (buildCertId (testCert ["good", "next"]) testIssuer "sha1") true testRand).2
        (fetchHeaders "agent") 10 ["next"]
        (some (FetchErr.ocspValidationError nonceMismatchMsg))
        { cache := [(fetchCacheKey testEnv (testCert ["good", "next"]) testIssuer "sha1" "agent" "good", [9])],
          trace :=
            [IOEvent.cacheCheck (fetchCacheKey testEnv (testCert ["good", "next"]) testIssuer "sha1" "agent" "good"),
             IOEvent.netSend (fetchWireRequest testEnv (testCert ["good", "next"]) testIssuer "sha1" true testRand "agent" "good") 10,
             IOEvent.cacheStore (fetchWireRequest testEnv (testCert ["good", "next"]) testIssuer "sha1" true testRand "agent" "good")
               (fetchCacheKey testEnv (testCert ["good", "next"]) testIssuer "sha1" "agent" "good")] } :=
  ⟨by decide, by decide,
   claim1_nonce_mismatch_proceeds_to_next_endpoint testEnv (testCert ["good", "next"])
     testIssuer "sha1" "agent" 10 testRand [9] [5] emptyState "good" ["next"]
     (Or.inl rfl) rfl rfl (by decide) (by decide) (by decide)⟩

/-- Claim C10: on a cache miss the fresh response is stored under the
nonce-free cache key before nonce verification runs, so when the first call
fails with the nonce-mismatch `OCSPValidationError` the cache already holds
the mismatching response, and a second call on the same inputs (with its own
fresh random draw) returns that response from the cache successfully. -/
theorem claim10_mismatching_response_cached_before_verification
    (env : Env) (c i : Certificate) (a ua : String) (t : Nat)
    (r1 r2 bs m : List Nat) (st : FetchState) (u : String)
    (ha : a = "sha1" ∨ a = "sha256")
    (hurls : c.ocsp_urls = [u])
    (hmiss : cacheLookup st.cache (fetchCacheKey env c i a ua u) = none)
    (hsend : env.send (fetchWireRequest env c i a true r1 ua u) t = Except.ok bs)
    (hresp : (env.load bs).nonce_value = some m)
    (hne : m ≠ r1) :
    (fetch env (PyVal.cert c) (PyVal.cert i) (PyVal.str a) (PyVal.bool true)
        (PyVal.str ua) t r1 st).1 =
      Except.error (FetchErr.ocspValidationError nonceMismatchMsg) ∧
    cacheLookup (fetch env (PyVal.cert c) (PyVal.cert i) (PyVal.str a) (PyVal.bool true)
        (PyVal.str ua) t r1 st).2.cache (fetchCacheKey env c i a ua u) = some bs ∧
    (fetch env (PyVal.cert c) (PyVal.cert i) (PyVal.str a) (PyVal.bool true)
        (PyVal.str ua) t r2
        (fetch env (PyVal.cert c) (PyVal.cert i) (PyVal.str a) (PyVal.bool true)
          (PyVal.str ua) t r1 st).2).1 =
      Except.ok (env.load bs) := by
  have h1 := fetch_mismatch_step env c i a ua t r1 bs m st u [] ha hurls hmiss hsend hresp hne
  rw [h1]
  refine ⟨rfl, cacheLookup_cons_self st.cache (fetchCacheKey env c i a ua u) bs, ?_⟩
  exact fetch_cache_hit_fst env c i a ua true t r2 _ u [] ha hurls
    (cacheLookup_cons_self st.cache (fetchCacheKey env c i a ua u) bs)

theorem claim10_witness :
    ((testEnv.load [9]).nonce_value = some [5]) ∧
    (([5] : List Nat) ≠ testRand) ∧
    (fetch testEnv (PyVal.cert (testCert ["good"])) (PyVal.cert testIssuer)
        (PyVal.str "sha1") (PyVal.bool true) (PyVal.str "agent") 10 testRand emptyState).1 =
      Except.error (FetchErr.ocspValidationError nonceMismatchMsg) ∧
    (fetch testEnv (PyVal.cert (testCert ["good"])) (PyVal.cert testIssuer)
        (PyVal.str "sha1") (PyVal.bool true) (PyVal.str "agent") 10 testRand2
        (fetch testEnv (PyVal.cert (testCert ["good"])) (PyVal.cert testIssuer)
          (PyVal.str "sha1") (PyVal.bool true) (PyVal.str "agent") 10 testRand emptyState).2).1 =
      Except.ok (testEnv.load [9]) := by
  have h := claim10_mismatching_response_cached_before_verification testEnv
    (testCert ["good"]) testIssuer "sha1" "agent" 10 testRand testRand2 [9] [5]
    emptyState "good" (Or.inl rfl) rfl rfl (by decide) (by decide) (by decide)
  exact ⟨by decide, by decide, h.1, h.2.2⟩

/-- Claim C6: whenever the digest-algorithm selector is outside the recognized
set, or the subject or issuer argument is not a certificate value, or the
use-nonce flag is not a boolean, or a supplied user agent is neither absent
nor a text value, `fetch` fails with an InvalidArgument-kind error (a Python
`TypeError` or `ValueError`) and the state is returned unchanged, so no
network or cache I/O occurred. -/
theorem claim6_invalid_arguments_rejected_early
    (env : Env) (cert issuer hash_algo nonce user_agent : PyVal)
    (t : Nat) (r : List Nat) (st : FetchState)
    (h : cert.isCert = false ∨ issuer.isCert = false ∨
         (hash_algo ≠ PyVal.str "sha1" ∧ hash_algo ≠ PyVal.str "sha256") ∨
         nonce.isBool = false ∨
         (user_agent ≠ PyVal.pynone ∧ user_agent.isStr = false)) :
    ∃ e : FetchErr,
      fetch env cert issuer hash_algo nonce user_agent t r st = (Except.error e, st) ∧
      e.isInvalidArgument = true := by
  cases cert with
  | str s => exact ⟨_, rfl, rfl⟩
  | bool bb => exact ⟨_, rfl, rfl⟩
  | int n => exact ⟨_, rfl, rfl⟩
  | pynone => exact ⟨_, rfl, rfl⟩
  | cert c =>
    cases issuer with
    | str s => exact ⟨_, rfl, rfl⟩
    | bool bb => exact ⟨_, rfl, rfl⟩
    | int n => exact ⟨_, rfl, rfl⟩
    | pynone => exact ⟨_, rfl, rfl⟩
    | cert i =>
      by_cases hha : hash_algo = PyVal.str "sha1" ∨ hash_algo = PyVal.str "sha256"
      · have hrest : nonce.isBool = false ∨
            (user_agent ≠ PyVal.pynone ∧ user_agent.isStr = false) := by
          rcases h with h | h | h | h | h
          · simp [PyVal.isCert] at h
          · simp [PyVal.isCert] at h
          · rcases hha with hh | hh
            · exact absurd hh h.1
            · exact absurd hh h.2
          · exact Or.inl h
          · exact Or.inr h
        rcases hha with hh | hh <;> subst hh
        all_goals
          cases nonce with
          | cert x => exact ⟨_, rfl, rfl⟩
          | str s => exact ⟨_, rfl, rfl⟩
          | int n => exact ⟨_, rfl, rfl⟩
          | pynone => exact ⟨_, rfl, rfl⟩
          | bool nb =>
            cases user_agent with
            | cert x => exact ⟨_, rfl, rfl⟩
            | bool x => exact ⟨_, rfl, rfl⟩
            | int n => exact ⟨_, rfl, rfl⟩
            | pynone =>
              exfalso
              rcases hrest with h | h
              · simp [PyVal.isBool] at h
              · exact h.1 rfl
            | str s =>
              exfalso
              rcases hrest with h | h
              · simp [PyVal.isBool] at h
              · simp [PyVal.isStr] at h
      · refine ⟨FetchErr.valueError "hash_algo must be one of sha1, sha256", ?_, rfl⟩
        simp only [fetch]
        rw [if_neg hha]

theorem claim6_witness :
    ((PyVal.str "md5" ≠ PyVal.str "sha1" ∧ PyVal.str "md5" ≠ PyVal.str "sha256") ∨
      (PyVal.int 3).isBool = false) ∧
    ∃ e : FetchErr,
      fetch testEnv (PyVal.cert (testCert ["good"])) (PyVal.cert testIssuer)
        (PyVal.str "md5") (PyVal.bool true) (PyVal.str "agent") 10 testRand emptyState =
        (Except.error e, emptyState) ∧
      e.isInvalidArgument = true :=
  ⟨Or.inl (by decide),
   claim6_invalid_arguments_rejected_early testEnv (PyVal.cert (testCert ["good"]))
     (PyVal.cert testIssuer) (PyVal.str "md5") (PyVal.bool true) (PyVal.str "agent")
     10 testRand emptyState (Or.inr (Or.inr (Or.inl (by decide))))⟩

/-- Claim C3: in every fetch call, every cache lookup, read and store event in
the trace addresses one of the keys `fetchCacheKey env c i a ua u` for the
certificate's endpoints `u` — a key built from the nonce-free request encoding,
the endpoint, the method POST and the fixed headers, taking neither the
use-nonce flag `b` nor the random draw `r` as input, so cache identity is the
same whether nonce use is enabled or not. -/
theorem claim3_cache_key_nonce_independent
    (env : Env) (c i : Certificate) (a ua : String) (b : Bool) (t : Nat)
    (r : List Nat) (st : FetchState)
    (ha : a = "sha1" ∨ a = "sha256")
    (htr : st.trace = []) :
    keyEventsOk (c.ocsp_urls.map (fetchCacheKey env c i a ua))
      (fetch env (PyVal.cert c) (PyVal.cert i) (PyVal.str a) (PyVal.bool b)
        (PyVal.str ua) t r st).2.trace = true ∧
    (∀ u, fetchCacheKey env c i a ua u =
      { method := "POST", url := u,
        data := env.dump (get_ocsp_request_obj (buildCertId c i a) false r),
        headers := fetchHeaders ua }) := by
  constructor
  · rw [fetch_valid_str_ua env c i a b ua t r st ha, fetchChecked_eq_loop]
    apply fetchLoop_keyEvents
    · intro u hu
      rw [loopRequest_no_nonce_eq_cacheKey env c i a b r ua u]
      exact List.elem_eq_true_of_mem (List.mem_map_of_mem _ hu)
    · rw [htr]
      rfl
  · intro u
    rfl

theorem claim3_witness :
    (emptyState.trace = []) ∧
    keyEventsOk ((testCert ["good", "next"]).ocsp_urls.map
        (fetchCacheKey testEnv (testCert ["good", "next"]) testIssuer "sha1" "agent"))
      (fetch testEnv (PyVal.cert (testCert ["good", "next"])) (PyVal.cert testIssuer)
        (PyVal.str "sha1") (PyVal.bool true) (PyVal.str "agent") 10 testRand
        emptyState).2.trace = true :=
  ⟨rfl,
   (claim3_cache_key_nonce_independent testEnv (testCert ["good", "next"]) testIssuer
     "sha1" "agent" true 10 testRand emptyState (Or.inl rfl) rfl).1⟩

/-- Claim C4: `fetch` iterates the certificate's endpoints in declared order
and attempts each exactly once.  First conjunct: if every endpoint misses the
cache and fails at transport, the call re-raises the most recently remembered
error — the last endpoint's, kind and message preserved — and the trace shows
one lookup and one send per endpoint, in order, with the cache untouched.
Second conjunct: a valid response at the first endpoint is returned at once;
the trace shows no events for the remaining endpoints.  Third conjunct: a
transport failure at the first endpoint is remembered as the most recent
error and the call continues as the loop over the remaining endpoints. -/
theorem claim4_endpoint_failover
    (env : Env) (c i : Certificate) (a ua : String) (b : Bool) (t : Nat)
    (r : List Nat) :
    (∀ (st : FetchState) (eOf : String → URLError) (ul : String),
      (a = "sha1" ∨ a = "sha256") →
      (∀ u ∈ c.ocsp_urls,
        cacheLookup st.cache (fetchCacheKey env c i a ua u) = none ∧
        env.send (fetchWireRequest env c i a b r ua u) t = Except.error (eOf u)) →
      c.ocsp_urls.getLast? = some ul →
      fetch env (PyVal.cert c) (PyVal.cert i) (PyVal.str a) (PyVal.bool b)
          (PyVal.str ua) t r st =
        (Except.error (FetchErr.urlError (eOf ul)),
         { st with trace := st.trace ++ c.ocsp_urls.foldr (fun u acc =>
             IOEvent.cacheCheck (fetchCacheKey env c i a ua u) ::
             IOEvent.netSend (fetchWireRequest env c i a b r ua u) t :: acc) [] })) ∧
    (∀ (st : FetchState) (u : String) (rest : List String) (bs : List Nat),
      (a = "sha1" ∨ a = "sha256") →
      c.ocsp_urls = u :: rest →
      cacheLookup st.cache (fetchCacheKey env c i a ua u) = none →
      env.send (fetchWireRequest env c i a b r ua u) t = Except.ok bs →
      ¬((fetchRequestPair (buildCertId c i a) b r).2.nonce_value.isSome = true ∧
        (env.load bs).nonce_value.isSome = true ∧
        (fetchRequestPair (buildCertId c i a) b r).2.nonce_value ≠
          (env.load bs).nonce_value) →
      fetch env (PyVal.cert c) (PyVal.cert i) (PyVal.str a) (PyVal.bool b)
          (PyVal.str ua) t r st =
        (Except.ok (env.load bs),
         { cache := (fetchCacheKey env c i a ua u, bs) :: st.cache,
           trace := st.trace ++
             [IOEvent.cacheCheck (fetchCacheKey env c i a ua u),
              IOEvent.netSend (fetchWireRequest env c i a b r ua u) t,
              IOEvent.cacheStore (fetchWireRequest env c i a b r ua u)
                (fetchCacheKey env c i a ua u)] })) ∧
    (∀ (st : FetchState) (u : String) (rest : List String) (e : URLError),
      (a = "sha1" ∨ a = "sha256") →
      c.ocsp_urls = u :: rest →
      cacheLookup st.cache (fetchCacheKey env c i a ua u) = none →
      env.send (fetchWireRequest env c i a b r ua u) t = Except.error e →
      fetch env (PyVal.cert c) (PyVal.cert i) (PyVal.str a) (PyVal.bool b)
          (PyVal.str ua) t r st =
        fetchLoop env (fetchRequestPair (buildCertId c i a) b r).1
          (fetchRequestPair (buildCertId c i a) b r).2 (fetchHeaders ua) t rest
          (some (FetchErr.urlError e))
          { st with trace := st.trace ++
              [IOEvent.cacheCheck (fetchCacheKey env c i a ua u),
               IOEvent.netSend (fetchWireRequest env c i a b r ua u) t] }) := by
  refine ⟨?_, ?_, ?_⟩
  · intro st eOf ul ha hall hlast
    rw [fetch_valid_str_ua env c i a b ua t r st ha, fetchChecked_eq_loop]
    have hall2 : ∀ u ∈ c.ocsp_urls,
        cacheLookup st.cache (loopRequest env (fetchRequestPair (buildCertId c i a) b r).1
          (fetchHeaders ua) u) = none ∧
        env.send (loopRequest env (fetchRequestPair (buildCertId c i a) b r).2
          (fetchHeaders ua) u) t = Except.error (eOf u) :=
      fun u hu => hall u hu
    rw [fetchLoop_all_fail env (fetchRequestPair (buildCertId c i a) b r).1
      (fetchRequestPair (buildCertId c i a) b r).2 (fetchHeaders ua) t eOf
      c.ocsp_urls none st hall2]
    rw [foldl_lastErr eOf c.ocsp_urls none, hlast]
    rfl
  · intro st u rest bs ha hurls hmiss hsend hn
    rw [fetch_valid_str_ua env c i a b ua t r st ha, fetchChecked_eq_loop, hurls]
    rw [← loopRequest_no_nonce_eq_cacheKey env c i a b r ua u] at hmiss ⊢
    rw [← loopRequest_wire_eq env c i a b r ua u] at hsend ⊢
    exact fetchLoop_cons_fresh_ok env _ _ _ t u rest none st bs hmiss hsend hn
  · intro st u rest e ha hurls hmiss hsend
    rw [fetch_valid_str_ua env c i a b ua t r st ha, fetchChecked_eq_loop, hurls]
    rw [← loopRequest_no_nonce_eq_cacheKey env c i a b r ua u] at hmiss ⊢
    rw [← loopRequest_wire_eq env c i a b r ua u] at hsend ⊢
    exact fetchLoop_cons_err env _ _ _ t u rest none st e hmiss hsend

theorem claim2_witness :
    (cacheLookup preloadedState.cache
      (fetchCacheKey testEnv (testCert ["good"]) testIssuer "sha1" "agent" "good") = some [9]) ∧
    ((testEnv.load [9]).nonce_value = some [5]) ∧
    fetch testEnv (PyVal.cert (testCert ["good"])) (PyVal.cert testIssuer) (PyVal.str "sha1")
        (PyVal.bool true) (PyVal.str "agent") 10 testRand preloadedState =
      (Except.ok (testEnv.load [9]),
        { preloadedState with trace := preloadedState.trace ++
            [IOEvent.cacheCheck (fetchCacheKey testEnv (testCert ["good"]) testIssuer "sha1" "agent" "good"),
             IOEvent.cacheGet (fetchCacheKey testEnv (testCert ["good"]) testIssuer "sha1" "agent" "good")] }) :=
  ⟨by decide, by decide,
   claim2_cache_hit_returns_immediately testEnv (testCert ["good"]) testIssuer
     "sha1" "agent" true 10 testRand [9] preloadedState "good" [] (Or.inl rfl) rfl (by decide)⟩

theorem claim5_witness :
    ((testCert []).ocsp_urls = []) ∧
    fetch testEnv (PyVal.cert (testCert [])) (PyVal.cert testIssuer) (PyVal.str "sha1")
        (PyVal.bool true) (PyVal.str "agent") 10 testRand emptyState =
      (Except.error FetchErr.raiseNone, emptyState) :=
  ⟨rfl, claim5_zero_endpoints_degenerate_failure testEnv (testCert []) testIssuer "sha1"
    "agent" true 10 testRand emptyState (Or.inl rfl) rfl⟩

theorem claim9_witness :
    (cacheLookup emptyState.cache
      (loopRequest testEnvPlain (fetchRequestPair testCertId true testRand).1
        (fetchHeaders "agent") "good") = none) ∧
    (testEnvPlain.send
      (loopRequest testEnvPlain (fetchRequestPair testCertId true testRand).2
        (fetchHeaders "agent") "good") 10 = Except.ok [7]) ∧
    ((testEnvPlain.load [7]).nonce_value = none) ∧
    (fetchLoop testEnvPlain (fetchRequestPair testCertId true testRand).1
      (fetchRequestPair testCertId true testRand).2 (fetchHeaders "agent") 10
      ["good"] none emptyState).1 = Except.ok (testEnvPlain.load [7]) :=
  ⟨rfl, by decide, by decide,
   (claim9_nonce_verification_tolerates_absence testEnvPlain
     (fetchRequestPair testCertId true testRand).1 (fetchRequestPair testCertId true testRand).2
     (fetchHeaders "agent") 10 "good" none emptyState [7] rfl (by decide)).1
     (Or.inr (Or.inl (by decide)))⟩

theorem claim4_witness :
    ((testCert ["bad1", "bad2"]).ocsp_urls.getLast? = some "bad2") ∧
    fetch testEnv (PyVal.cert (testCert ["bad1", "bad2"])) (PyVal.cert testIssuer)
        (PyVal.str "sha1") (PyVal.bool true) (PyVal.str "agent") 10 testRand emptyState =
      (Except.error (FetchErr.urlError { reason := "bad2" }),
       { emptyState with trace := emptyState.trace ++
           (testCert ["bad1", "bad2"]).ocsp_urls.foldr (fun u acc =>
             IOEvent.cacheCheck (fetchCacheKey testEnv (testCert ["bad1", "bad2"]) testIssuer "sha1" "agent" u) ::
             IOEvent.netSend (fetchWireRequest testEnv (testCert ["bad1", "bad2"]) testIssuer "sha1" true testRand "agent" u) 10 :: acc) [] }) ∧
    fetch testEnvPlain (PyVal.cert (testCert ["good"])) (PyVal.cert testIssuer)
        (PyVal.str "sha1") (PyVal.bool true) (PyVal.str "agent") 10 testRand emptyState =
      (Except.ok (testEnvPlain.load [7]),
       { cache := [(fetchCacheKey testEnvPlain (testCert ["good"]) testIssuer "sha1" "agent" "good", [7])],
         trace := emptyState.trace ++
           [IOEvent.cacheCheck (fetchCacheKey testEnvPlain (testCert ["good"]) testIssuer "sha1" "agent" "good"),
            IOEvent.netSend (fetchWireRequest testEnvPlain (testCert ["good"]) testIssuer "sha1" true testRand "agent" "good") 10,
            IOEvent.cacheStore (fetchWireRequest testEnvPlain (testCert ["good"]) testIssuer "sha1" true testRand "agent" "good")
              (fetchCacheKey testEnvPlain (testCert ["good"]) testIssuer "sha1" "agent" "good")] }) ∧
    fetch testEnv (PyVal.cert (testCert ["bad1", "good"])) (PyVal.cert testIssuer)
        (PyVal.str "sha1") (PyVal.bool true) (PyVal.str "agent") 10 testRand emptyState =
      fetchLoop testEnv
        (fetchRequestPair (buildCertId (testCert ["bad1", "good"]) testIssuer "sha1") true testRand).1
        (fetchRequestPair (buildCertId (testCert ["bad1", "good"]) testIssuer "sha1") true testRand).2
        (fetchHeaders "agent") 10 ["good"] (some (FetchErr.urlError { reason := "bad1" }))
        { emptyState with trace := emptyState.trace ++
            [IOEvent.cacheCheck (fetchCacheKey testEnv (testCert ["bad1", "good"]) testIssuer "sha1" "agent" "bad1"),
             IOEvent.netSend (fetchWireRequest testEnv (testCert ["bad1", "good"]) testIssuer "sha1" true testRand "agent" "bad1") 10] } := by
  refine ⟨rfl, ?_, ?_, ?_⟩
  · exact (claim4_endpoint_failover testEnv (testCert ["bad1", "bad2"]) testIssuer
      "sha1" "agent" true 10 testRand).1 emptyState (fun u => { reason := u }) "bad2"
      (Or.inl rfl) (by decide) rfl
  · exact (claim4_endpoint_failover testEnvPlain (testCert ["good"]) testIssuer
      "sha1" "agent" true 10 testRand).2.1 emptyState "good" [] [7]
      (Or.inl rfl) rfl (by decide) (by decide) (by decide)
  · exact (claim4_endpoint_failover testEnv (testCert ["bad1", "good"]) testIssuer
      "sha1" "agent" true 10 testRand).2.2 emptyState "bad1" ["good"]
      { reason := "bad1" } (Or.inl rfl) rfl (by decide) (by decide)

end CertValidator
